import Mathlib

set_option maxRecDepth 8000

/-!
Shallow embedding of the Projeto_Saldo_Empenhos balance-reconciliation pipeline.

The Python sources embedded here are:
* `src/calculate_balances.py` — `processar_valor`, `consultar_pagamentos_relacionados`,
  `calcular_saldos`;
* `src/api_client.py` — `consultar_empenho_impactado`, `consultar_documentos_relacionados`,
  `consultar_historico_empenho`, `coletar_itens_empenho_completos`.

Remote HTTP endpoints are abstracted as `serve` functions mapping request parameters to
`Option (List record)`; `none` models a request that raises
`requests.exceptions.RequestException` (non-success status, timeout, connection reset),
`some batch` a successful page.  Python `float` values are modelled as rationals together
with an explicit IEEE-754 binary64 round-to-nearest-even function (`roundDouble`), so that
binary floating-point arithmetic is represented exactly; `decimal.Decimal` values are plain
rationals (exact decimal arithmetic).  Unbounded `while True` loops take an explicit fuel
argument; theorems instantiate the fuel above the number of pages a scenario touches, and
fuel exhaustion returns what was accumulated so far.
-/

-- Batteries marks the rational-number kernel operations `@[irreducible]`, which blocks
-- `decide`-style evaluation of the concrete scenarios below; restore the default
-- reducibility for them in this file.
attribute [local semireducible] Rat.add Rat.mul Rat.inv Rat.sub

/-! ### Decimal string parsing -/

/-- Accumulate the decimal digits of `cs` into a number; `none` if a non-digit occurs. -/
def digitsVal? (cs : List Char) : Option Nat :=
  cs.foldl
    (fun acc c => acc.bind (fun n => if c.isDigit then some (n * 10 + (c.toNat - 48)) else none))
    (some 0)

/-- Split a character list at every occurrence of `c` (like Python `str.split`). -/
def splitOnChar (c : Char) : List Char → List (List Char)
  | [] => [[]]
  | d :: rest =>
    let r := splitOnChar c rest
    if d = c then [] :: r
    else
      match r with
      | [] => [[d]]
      | h :: t => (d :: h) :: t

/-- Parse an unsigned decimal literal `digits[.digits]`, the grammar shared by Python
`float(...)` and `decimal.Decimal(...)` on the strings this pipeline produces
(exponents never survive the cleaning steps). -/
def parseUnsignedDecimal? (cs : List Char) : Option ℚ :=
  match splitOnChar '.' cs with
  | [i] =>
    if i.isEmpty then none
    else (digitsVal? i).map (fun n => (n : ℚ))
  | [i, f] =>
    if i.isEmpty ∧ f.isEmpty then none
    else
      match digitsVal? i, digitsVal? f with
      | some n, some m => some ((n : ℚ) + (m : ℚ) / (10 : ℚ) ^ f.length)
      | _, _ => none
  | _ => none

/-- Parse an optionally signed decimal literal; `none` models a `ValueError` /
`InvalidOperation` raised by the Python conversion. -/
def parseDecimal? (cs : List Char) : Option ℚ :=
  match cs with
  | '-' :: rest => (parseUnsignedDecimal? rest).map (fun q => -q)
  | '+' :: rest => parseUnsignedDecimal? rest
  | _ => parseUnsignedDecimal? cs

/-- Python `s.replace(c, '')` for a single character `c`. -/
def removeChar (c : Char) (cs : List Char) : List Char :=
  cs.filter (fun d => d ≠ c)

/-- Python `s.replace(c, r)` for single characters. -/
def swapChar (c r : Char) (cs : List Char) : List Char :=
  cs.map (fun d => if d = c then r else d)

/-- Translation of the value conversion in `api_client.consultar_empenho_impactado`:
`Decimal(valor_str.replace('.', '').replace(',', '.'))`, an exact decimal value. -/
def pyDecimalBR? (s : String) : Option ℚ :=
  parseDecimal? (swapChar ',' '.' (removeChar '.' s.toList))

/-! ### IEEE-754 binary64 model (Python `float`) -/

/-- Fuelled floor of `log2`; the fuel is the number itself, far above the recursion depth. -/
def log2fuel : Nat → Nat → Nat
  | 0, _ => 0
  | fuel + 1, n => if n ≤ 1 then 0 else log2fuel fuel (n / 2) + 1

/-- Floor of the base-2 logarithm of a natural number (0 for 0). -/
def natLog2 (n : Nat) : Nat := log2fuel n n

/-- The rational `2 ^ k` for an integer exponent `k`. -/
def pow2 (k : ℤ) : ℚ :=
  if 0 ≤ k then ((2 : ℚ) ^ k.toNat) else ((2 : ℚ) ^ (-k).toNat)⁻¹

/-- Floor of the base-2 logarithm of a positive rational. -/
def qFloorLog2 (q : ℚ) : ℤ :=
  let k0 : ℤ := (natLog2 q.num.natAbs : ℤ) - (natLog2 q.den : ℤ)
  if pow2 (k0 + 1) ≤ q then k0 + 1
  else if pow2 k0 ≤ q then k0
  else k0 - 1

/-- Floor of a nonnegative rational (only used on nonnegative inputs). -/
def ratFloorPos (q : ℚ) : ℤ := q.num / (q.den : ℤ)

/-- Round a nonnegative rational to the nearest integer, ties to even. -/
def roundHalfEven (m : ℚ) : ℤ :=
  let n := ratFloorPos m
  let frac := m - (n : ℚ)
  if frac < 1 / 2 then n
  else if 1 / 2 < frac then n + 1
  else if n % 2 = 0 then n else n + 1

/-- Round a positive rational to the nearest binary64 value (53-bit significand). -/
def roundDoublePos (q : ℚ) : ℚ :=
  let e := qFloorLog2 q - 52
  ((roundHalfEven (q * pow2 (-e)) : ℤ) : ℚ) * pow2 e

/-- IEEE-754 binary64 round-to-nearest-even on exact rationals: the value a Python
`float` actually stores.  Subnormal underflow and overflow are outside the monetary
ranges this pipeline handles and are not modelled. -/
def roundDouble (q : ℚ) : ℚ :=
  if q = 0 then 0
  else if q < 0 then -(roundDoublePos (-q))
  else roundDoublePos q

/-- Python `float` addition: exact sum, then binary64 rounding. -/
def fadd (a b : ℚ) : ℚ := roundDouble (a + b)

/-- Python `float` subtraction. -/
def fsub (a b : ℚ) : ℚ := roundDouble (a - b)

/-- Python `float` multiplication. -/
def fmul (a b : ℚ) : ℚ := roundDouble (a * b)

/-- Python `float` division, made explicitly partial: `none` is a `ZeroDivisionError`. -/
def fdivChecked (a b : ℚ) : Option ℚ :=
  if b = 0 then none else some (roundDouble (a / b))

/-! ### Monetary value cleaning (`calculate_balances.processar_valor`) -/

/-- The cleaning steps of `processar_valor`: keep only digits, `.`, `,` and `-`
(Python `strip()` followed by the character filter), then normalise the separators
exactly as the source does. -/
def limparValor (cs : List Char) : List Char :=
  let kept := cs.filter (fun c => c.isDigit || c = '.' || c = ',' || c = '-')
  if kept.contains ',' && kept.contains '.' then swapChar ',' '.' (removeChar '.' kept)
  else if kept.contains ',' then swapChar ',' '.' kept
  else kept

/-- Translation of `calculate_balances.processar_valor` on string inputs: clean the
localized string, convert with Python `float(...)` (binary64), and recover a parse
failure as `0.0`.  An empty or missing value also yields `0.0`. -/
def processar_valor (s : String) : ℚ :=
  match parseDecimal? (limparValor s.toList) with
  | some q => roundDouble q
  | none => 0

/-! ### JSON records -/

/-- A JSON object with string fields, as the transparency API returns them. -/
abbrev JsonItem := List (String × String)

/-- Python `item.get(k)`. -/
def jsonGet (item : JsonItem) (k : String) : Option String :=
  item.lookup k

/-- Python `item.get(k, d)`. -/
def jsonGetD (item : JsonItem) (k d : String) : String :=
  (item.lookup k).getD d

/-! ### Attribution resolver (`api_client.consultar_empenho_impactado`) -/

/-- The phase-dependent field list of `consultar_empenho_impactado`:
phase 3 (payment) reads `valorPago` and `valorRestoPago`, phase 2 (settlement)
reads `valorLiquidado`, anything else reads no field. -/
def camposPorFase (fase : ℤ) : List String :=
  if fase = 3 then ["valorPago", "valorRestoPago"]
  else if fase = 2 then ["valorLiquidado"]
  else []

/-- The accumulation loop of `consultar_empenho_impactado` over the matched record:
each selected field defaults to `"0,00"`, a falsy or literally zero string is skipped,
anything else is parsed as an exact `Decimal` and added.  `none` models the exception
raised when a field fails to parse. -/
def somarCamposImpactados (item : JsonItem) (campos : List String) : Option ℚ :=
  campos.foldl
    (fun acc campo =>
      acc.bind (fun total =>
        let valorStr := jsonGetD item campo "0,00"
        if valorStr ≠ "" ∧ valorStr ≠ "0,00" then
          (pyDecimalBR? valorStr).map (fun v => total + v)
        else some total))
    (some 0)

/-- Translation of `api_client.consultar_empenho_impactado` given the decoded response
`data`: scan for the first record whose `empenho` field equals the target; when none
matches the result is zero; otherwise sum the phase-appropriate fields of that record. -/
def consultar_empenho_impactado (data : List JsonItem) (fase : ℤ) (alvo : String) :
    Option ℚ :=
  match data.find? (fun item => jsonGet item "empenho" == some alvo) with
  | none => some 0
  | some item => somarCamposImpactados item (camposPorFase fase)

/-! ### Pagination loops -/

/-- The `while True` loop of `calculate_balances.consultar_pagamentos_relacionados`:
successive pages starting at 1, stop on an empty batch or a batch below the 500-record
page ceiling; a failed request makes the whole call return `None`, dropping every page
fetched so far (the source's `return None` inside the `except` arm). -/
def pagsLoop {α : Type} [DecidableEq α] (serve : Nat → Option (List α)) :
    Nat → Nat → List α → Option (List α)
  | 0, _, resultados => some resultados
  | fuel + 1, pagina, resultados =>
    match serve pagina with
    | none => none
    | some dados =>
      if dados = [] then some resultados
      else if dados.length < 500 then some (resultados ++ dados)
      else pagsLoop serve fuel (pagina + 1) (resultados ++ dados)

/-- Translation of `calculate_balances.consultar_pagamentos_relacionados`. -/
def consultar_pagamentos_relacionados {α : Type} [DecidableEq α]
    (serve : Nat → Option (List α)) (fuel : Nat) : Option (List α) :=
  pagsLoop serve fuel 1 []

/-- Outcome of the instrumented pagination loop: the collected records together with
the number of page requests issued. -/
structure FetchResult (α : Type) where
  registros : List α
  requisicoes : Nat
deriving DecidableEq

/-- The `while True` loop of `api_client.consultar_documentos_relacionados`:
stop without recording on an empty batch or on a batch identical to the previous one
(`ultimo_lote`), record and stop on a batch below 500, otherwise record and continue;
a failed request makes the whole call return `[]`, dropping every page fetched so far
(the source's `return []` inside the `except` arm). -/
def docsLoop {α : Type} [DecidableEq α] (serve : Nat → Option (List α)) :
    Nat → Nat → Option (List α) → List α → Nat → FetchResult α
  | 0, _, _, resultados, reqs => ⟨resultados, reqs⟩
  | fuel + 1, pagina, ultimoLote, resultados, reqs =>
    match serve pagina with
    | none => ⟨[], reqs + 1⟩
    | some dados =>
      if dados = [] ∨ some dados = ultimoLote then ⟨resultados, reqs + 1⟩
      else if dados.length < 500 then ⟨resultados ++ dados, reqs + 1⟩
      else docsLoop serve fuel (pagina + 1) (some dados) (resultados ++ dados) (reqs + 1)

/-- Translation of `api_client.consultar_documentos_relacionados` (records only). -/
def consultar_documentos_relacionados {α : Type} [DecidableEq α]
    (serve : Nat → Option (List α)) (fuel : Nat) : List α :=
  (docsLoop serve fuel 1 none [] 0).registros

/-! ### Ledger history scan (`api_client`) -/

/-- Translation of `api_client.consultar_historico_empenho`: one request for the given
`(sequencial, pagina)` pair; a failed request is recovered as the empty list. -/
def consultar_historico_empenho {α : Type} (serve : Nat → Nat → Option (List α))
    (sequencial pagina : Nat) : List α :=
  (serve sequencial pagina).getD []

/-- The sequence loop of `api_client.coletar_itens_empenho_completos`: sequences from 1
up to `maxSequenciais`, each queried at page 1 only (the source calls
`consultar_historico_empenho` with its default `pagina=1`); an empty sequence is one
miss, three consecutive misses stop the scan, a hit resets the miss counter. -/
def coletarLoop {α : Type} (serve : Nat → Nat → Option (List α)) (maxSequenciais : Nat) :
    Nat → Nat → Nat → List (Nat × List α) → List (Nat × List α)
  | 0, _, _, resultados => resultados
  | fuel + 1, sequencial, falhas, resultados =>
    if maxSequenciais < sequencial then resultados
    else
      let dados := consultar_historico_empenho serve sequencial 1
      if dados.isEmpty then
        if 3 ≤ falhas + 1 then resultados
        else coletarLoop serve maxSequenciais fuel (sequencial + 1) (falhas + 1) resultados
      else coletarLoop serve maxSequenciais fuel (sequencial + 1) 0 (resultados ++ [(sequencial, dados)])

/-- Translation of `api_client.coletar_itens_empenho_completos`; the result maps each
sequence that returned events to those events (the Python dict, in insertion order). -/
def coletar_itens_empenho_completos {α : Type} (serve : Nat → Nat → Option (List α))
    (maxSequenciais : Nat) : List (Nat × List α) :=
  coletarLoop serve maxSequenciais (maxSequenciais + 1) 1 0 []

/-! ### Balance calculator (`calculate_balances.calcular_saldos`) -/

/-- One input spreadsheet row of `calcular_saldos` (the columns it requires). -/
structure Row where
  documento : String
  valor : String
  observacao : String
deriving DecidableEq

/-- One output record of `calcular_saldos` (the consolidated result dict).
`percentual_executado` keeps the division explicit: `none` would be a division by
zero, which the source guards against with `valor_empenho > 0`. -/
structure ResultadoEmpenho where
  codigo_empenho : String
  valor_empenho : ℚ
  total_pago : ℚ
  saldo : ℚ
  percentual_executado : Option ℚ
  observacao : String
  qtd_pagamentos : Nat
deriving DecidableEq

/-- The per-payment contribution in `calcular_saldos`:
`processar_valor(pagamento.get('valor', 0))`; a missing field is the integer `0`,
which `processar_valor` passes through as `0.0`. -/
def valorDoPagamento (pagamento : JsonItem) : ℚ :=
  match pagamento.lookup "valor" with
  | some s => processar_valor s
  | none => 0

/-- The guarded percentage of `calcular_saldos`:
`(total_pago / valor_empenho * 100) if valor_empenho > 0 else 0`, with the division
made explicitly partial. -/
def percentualExecutadoChecked (totalPago valorEmpenho : ℚ) : Option ℚ :=
  if 0 < valorEmpenho then (fdivChecked totalPago valorEmpenho).map (fun x => fmul x 100)
  else some 0

/-- The body of the row loop of `calcular_saldos`: fetch the related documents of the
row's commitment through `consultar_pagamentos_relacionados` (`env` maps a commitment
code to its page server), sum `processar_valor` of every returned document's `valor`
field in `float` arithmetic, and build the consolidated record. -/
def processarEmpenho (env : String → Nat → Option (List JsonItem)) (fuel : Nat)
    (row : Row) : ResultadoEmpenho :=
  let valorEmpenho := processar_valor row.valor
  let pagamentosRelacionados := consultar_pagamentos_relacionados (env row.documento) fuel
  let docs := pagamentosRelacionados.getD []
  let totalPago := docs.foldl (fun acc p => fadd acc (valorDoPagamento p)) 0
  ⟨row.documento, valorEmpenho, totalPago, fsub valorEmpenho totalPago,
    percentualExecutadoChecked totalPago valorEmpenho, row.observacao, docs.length⟩

/-- Translation of the batch loop of `calculate_balances.calcular_saldos`: one output
record per input row, in order; there is no per-row exception handler, no failure
tally and no row is ever skipped. -/
def calcular_saldos (env : String → Nat → Option (List JsonItem)) (fuel : Nat)
    (rows : List Row) : List ResultadoEmpenho :=
  rows.map (processarEmpenho env fuel)

/-! ### Ledger aggregation (modelled from the spec) -/

/-- A ledger amendment event as the spec describes it (spec section 3). -/
structure LedgerEvent where
  operationType : String
  amount : ℚ
deriving DecidableEq

/-- The component totals of one commitment's ledger (spec section 4.3). -/
structure LedgerTotals where
  initialValue : ℚ
  reinforcedValue : ℚ
  cancelledValue : ℚ
  currentValue : ℚ
deriving DecidableEq

/-- Modelled from the spec: the per-event switch of the Ledger History Aggregator
(spec section 4.3).  No function under `src/` folds the collected events into totals —
`coletar_itens_empenho_completos` only collects raw records — so the switch on
`operationType` (`INCLUSAO`/`REFORCO`/`ANULACAO`, the operation names documented in
`consultar_historico_empenho`) is modelled from the spec's words: Inclusion and
Reinforcement add to the running value, Cancellation subtracts, anything else is
ignored. -/
def aggregateStep (t : LedgerTotals) (e : LedgerEvent) : LedgerTotals :=
  if e.operationType = "INCLUSAO" then
    ⟨t.initialValue + e.amount, t.reinforcedValue, t.cancelledValue, t.currentValue + e.amount⟩
  else if e.operationType = "REFORCO" then
    ⟨t.initialValue, t.reinforcedValue + e.amount, t.cancelledValue, t.currentValue + e.amount⟩
  else if e.operationType = "ANULACAO" then
    ⟨t.initialValue, t.reinforcedValue, t.cancelledValue + e.amount, t.currentValue - e.amount⟩
  else t

/-- Modelled from the spec: folding a commitment's event stream into its totals
(spec section 4.3). -/
def aggregateLedger (events : List LedgerEvent) : LedgerTotals :=
  events.foldl aggregateStep ⟨0, 0, 0, 0⟩

/-! ### The balance computation as the spec words it (for claim comparison) -/

/-- A related document as the spec's section 4.6 sees it: a code and a phase. -/
structure SpecRelatedDoc where
  codigo : String
  fase : ℤ
deriving DecidableEq

/-- The spec's section 4.6 accumulation, stated from its words for comparison with
`calcular_saldos`: phase-2 documents accumulate into `totalSettled` and phase-3
documents into `totalPaid`, each amount obtained from the attribution resolver
(`attribute`), other phases ignored.  Returns `(totalSettled, totalPaid)`. -/
def specTotais (attribution : String → ℤ → String → ℚ) (docs : List SpecRelatedDoc)
    (cid : String) : ℚ × ℚ :=
  docs.foldl
    (fun st d =>
      if d.fase = 2 then (st.1 + attribution d.codigo 2 cid, st.2)
      else if d.fase = 3 then (st.1, st.2 + attribution d.codigo 3 cid)
      else st)
    (0, 0)

/-- The spec's section 4.6 balance: `currentValue - totalPaid`. -/
def specBalance (attribution : String → ℤ → String → ℚ) (currentValue : ℚ)
    (docs : List SpecRelatedDoc) (cid : String) : ℚ :=
  currentValue - (specTotais attribution docs cid).2

/-! ### Phase rewriting (to state that the balance calculator never reads a phase) -/

/-- Rewrite the `fase` field of a JSON record to `x`, leaving every other field alone. -/
def comFase (x : String) (item : JsonItem) : JsonItem :=
  item.map (fun kv => (kv.1, if kv.1 = "fase" then x else kv.2))

/-- Rewrite the `fase` field of every document any page of `env` serves. -/
def envComFase (x : String) (env : String → Nat → Option (List JsonItem)) :
    String → Nat → Option (List JsonItem) :=
  fun cod p => (env cod p).map (List.map (comFase x))

/-! ### Concrete scenario inputs for the theorems -/

/-- An attribution resolver that attributes nothing to any commitment. -/
def zeroAttr : String → ℤ → String → ℚ := fun _ _ _ => 0

/-- A page server on which every request raises (`none`), for any commitment. -/
def envFalha : String → Nat → Option (List JsonItem) := fun _ _ => none

/-- A page server on which every commitment has no related documents. -/
def envVazioDocs : String → Nat → Option (List JsonItem) := fun _ _ => some []

/-- A commitment worth 100,00 (input spreadsheet row). -/
def rowCem : Row := ⟨"E1", "100,00", "obs"⟩

/-- A page server with a single related document of value 100,00 at phase 2. -/
def envDocFase2 : String → Nat → Option (List JsonItem) := fun _ p =>
  if p = 1 then some [[("valor", "100,00"), ("fase", "2")]] else some []

/-- A page server whose first page is full (500 records) and whose second request
raises. -/
def servePagFalha : Nat → Option (List Nat) := fun p =>
  if p = 1 then some (List.range 500) else none

/-- First full batch of 500 records. -/
def loteA : List Nat := List.range 500

/-- Second full batch of 500 records, distinct from the first. -/
def loteB : List Nat := (List.range 500).map (fun i => 500 + i)

/-- Final short batch of 37 records. -/
def loteC : List Nat := (List.range 37).map (fun i => 1000 + i)

/-- Third full batch of 500 records, distinct from the first two. -/
def loteD : List Nat := (List.range 500).map (fun i => 1000 + i)

/-- A mocked endpoint returning batches of sizes 500, 500, 37. -/
def serveTresLotes : Nat → Option (List Nat) := fun p =>
  if p = 1 then some loteA else if p = 2 then some loteB
  else if p = 3 then some loteC else some []

/-- A mocked endpoint returning batches 500, 500, 500, 500 where every page from the
third on repeats the third batch (the API quirk past the end of the data). -/
def serveLoteRepetido : Nat → Option (List Nat) := fun p =>
  if p = 1 then some loteA else if p = 2 then some loteB else some loteD

/-- An impacted-commitments record for commitment `X` at the payment phase. -/
def impactoX : JsonItem :=
  [("empenho", "X"), ("valorPago", "1.500,00"), ("valorRestoPago", "0,00")]

/-- An impacted-commitments record for commitment `Z` at the settlement phase. -/
def impactoZ : JsonItem := [("empenho", "Z"), ("valorLiquidado", "2.000,50")]

/-- A ledger-history server with hits at sequences 1 and 5 only. -/
def serveSeq15 : Nat → Nat → Option (List Nat) := fun s _ =>
  if s = 1 then some [11] else if s = 5 then some [55] else some []

/-- A ledger-history server with hits at sequences 1 and 4 only. -/
def serveSeq14 : Nat → Nat → Option (List Nat) := fun s _ =>
  if s = 1 then some [11] else if s = 4 then some [44] else some []

/-- A ledger-history server where sequence 1 has a full first page (500 events) and a
non-empty second page. -/
def serveHistorico : Nat → Nat → Option (List Nat) := fun s p =>
  if s = 1 then (if p = 1 then some (List.range 500) else if p = 2 then some [500] else some [])
  else some []

/-- A page server with three related payments of 0,10 each. -/
def envTresPagamentos : String → Nat → Option (List JsonItem) := fun _ p =>
  if p = 1 then some [[("valor", "0,10")], [("valor", "0,10")], [("valor", "0,10")]]
  else some []

/-- A commitment worth 0,30 (input spreadsheet row). -/
def rowTrinta : Row := ⟨"E9", "0,30", ""⟩

/-- A commitment with a zero committed value (input spreadsheet row). -/
def rowZero : Row := ⟨"E0", "0,00", ""⟩

/-!
## Theorems
-/

/-! ### Helper lemmas -/

/-- Rewriting the `fase` field leaves the `valor` field untouched. -/
theorem lookup_valor_comFase (x : String) (item : JsonItem) :
    (comFase x item).lookup "valor" = item.lookup "valor" := by
  induction item with
  | nil => rfl
  | cons kv t ih =>
    obtain ⟨a, b⟩ := kv
    simp only [comFase, List.map_cons, List.lookup]
    cases hba : ("valor" == a) with
    | true =>
      have ha : a = "valor" := (eq_of_beq hba).symm
      subst ha
      simp [show ("valor" : String) ≠ "fase" from by decide]
    | false =>
      simp only [comFase] at ih
      exact ih

/-- Rewriting the `fase` field does not change the parsed payment value. -/
theorem valorDoPagamento_comFase (x : String) (p : JsonItem) :
    valorDoPagamento (comFase x p) = valorDoPagamento p := by
  unfold valorDoPagamento
  rw [lookup_valor_comFase]

/-- The pagination loop of `consultar_pagamentos_relacionados` commutes with
rewriting the `fase` field of every served document. -/
theorem pagsLoop_comFase (x : String) (serve : Nat → Option (List JsonItem)) :
    ∀ (fuel pagina : Nat) (acc : List JsonItem),
      pagsLoop (fun p => (serve p).map (List.map (comFase x))) fuel pagina
          (acc.map (comFase x))
        = (pagsLoop serve fuel pagina acc).map (List.map (comFase x)) := by
  intro fuel
  induction fuel with
  | zero => intro pagina acc; rfl
  | succ n ih =>
    intro pagina acc
    cases h : serve pagina with
    | none => simp [pagsLoop, h]
    | some dados =>
      simp only [pagsLoop, h, Option.map_some']
      by_cases hd : dados = []
      · subst hd
        simp
      · have hd' : List.map (comFase x) dados ≠ [] := by
          simpa using hd
        rw [if_neg hd', if_neg hd, List.length_map]
        by_cases hl : dados.length < 500
        · rw [if_pos hl, if_pos hl]
          simp [List.map_append]
        · rw [if_neg hl, if_neg hl, ← List.map_append]
          exact ih (pagina + 1) (acc ++ dados)

/-- `processarEmpenho` is blind to the `fase` field of the related documents. -/
theorem processarEmpenho_comFase (x : String)
    (env : String → Nat → Option (List JsonItem)) (fuel : Nat) (row : Row) :
    processarEmpenho (envComFase x env) fuel row = processarEmpenho env fuel row := by
  have hfun : (fun (acc : ℚ) (p : JsonItem) => fadd acc (valorDoPagamento (comFase x p)))
      = fun acc p => fadd acc (valorDoPagamento p) := by
    funext a p
    rw [valorDoPagamento_comFase]
  have hloop := pagsLoop_comFase x (env row.documento) fuel 1 []
  simp only [List.map_nil] at hloop
  unfold processarEmpenho consultar_pagamentos_relacionados envComFase
  rw [hloop]
  cases hp : pagsLoop (env row.documento) fuel 1 [] with
  | none => rfl
  | some docs =>
    simp only [Option.map_some', Option.getD_some]
    rw [List.foldl_map, hfun, List.length_map]

/-- The invariant step: one `aggregateStep` preserves the current-value identity. -/
theorem aggregateStep_inv (t : LedgerTotals) (e : LedgerEvent)
    (h : t.currentValue = t.initialValue + t.reinforcedValue - t.cancelledValue) :
    (aggregateStep t e).currentValue
      = (aggregateStep t e).initialValue + (aggregateStep t e).reinforcedValue
        - (aggregateStep t e).cancelledValue := by
  unfold aggregateStep
  split_ifs
  · show t.currentValue + e.amount
      = t.initialValue + e.amount + t.reinforcedValue - t.cancelledValue
    rw [h]; ring
  · show t.currentValue + e.amount
      = t.initialValue + (t.reinforcedValue + e.amount) - t.cancelledValue
    rw [h]; ring
  · show t.currentValue - e.amount
      = t.initialValue + t.reinforcedValue - (t.cancelledValue + e.amount)
    rw [h]; ring
  · exact h

/-- The invariant is preserved by folding any event list from any valid start. -/
theorem aggregateFold_inv :
    ∀ (events : List LedgerEvent) (t : LedgerTotals),
      t.currentValue = t.initialValue + t.reinforcedValue - t.cancelledValue →
        (events.foldl aggregateStep t).currentValue
          = (events.foldl aggregateStep t).initialValue
            + (events.foldl aggregateStep t).reinforcedValue
            - (events.foldl aggregateStep t).cancelledValue := by
  intro events
  induction events with
  | nil => intro t h; simpa using h
  | cons e rest ih =>
    intro t h
    simp only [List.foldl_cons]
    exact ih _ (aggregateStep_inv t e h)

/-- The guarded percentage never raises a division by zero. -/
theorem percentualExecutadoChecked_isSome (t v : ℚ) :
    (percentualExecutadoChecked t v).isSome = true := by
  unfold percentualExecutadoChecked fdivChecked
  by_cases h : 0 < v
  · rw [if_pos h, if_neg (ne_of_gt h)]
    rfl
  · rw [if_neg h]
    rfl

/-- The guarded percentage is zero whenever the committed value is not positive. -/
theorem percentualExecutadoChecked_nonpos (t v : ℚ) (h : v ≤ 0) :
    percentualExecutadoChecked t v = some 0 := by
  unfold percentualExecutadoChecked
  rw [if_neg (not_lt.mpr h)]

/-! ### Claim C1 -/

/-- Claim C1 counterexample: the balance calculator does not branch on the related
document's phase and does not use the attribution resolver.  On a commitment of
100,00 with a single related document of value 100,00 carrying phase 2, the code adds
the document's own `valor` into `total_pago` (100) and reports `saldo = 0`, whereas
the claimed computation leaves `totalPaid = 0` (a phase-2 document feeds only
`totalSettled`) and a balance of 100, whatever the attribution resolver answers. -/
theorem c1_phase_branching_counterexample :
    (calcular_saldos envDocFase2 2 [rowCem]).map (fun r => (r.total_pago, r.saldo))
      = [((100 : ℚ), 0)]
    ∧ specTotais zeroAttr [⟨"D1", 2⟩] "E1" = (0, 0)
    ∧ specBalance zeroAttr 100 [⟨"D1", 2⟩] "E1" = 100
    ∧ (100 : ℚ) ≠ 0
    ∧ (0 : ℚ) ≠ 100 := by
  refine ⟨by decide, by decide, by decide, by decide, by decide⟩

/-- Claim C1 (amended): for every commitment row, `calcular_saldos` accumulates
`total_pago` by summing `processar_valor` of each related document's `valor` field,
ignoring the documents' phases entirely (rewriting every served document's `fase`
field to an arbitrary value changes nothing in the output) and never consulting the
attribution resolver; the reported balance is `saldo = valor_empenho - total_pago`
in float arithmetic. -/
theorem c1_balance_ignores_phase :
    (∀ (x : String) (env : String → Nat → Option (List JsonItem)) (fuel : Nat)
        (rows : List Row),
        calcular_saldos (envComFase x env) fuel rows = calcular_saldos env fuel rows)
    ∧ ∀ (env : String → Nat → Option (List JsonItem)) (fuel : Nat) (row : Row),
        (processarEmpenho env fuel row).saldo
          = fsub (processarEmpenho env fuel row).valor_empenho
              (processarEmpenho env fuel row).total_pago := by
  constructor
  · intro x env fuel rows
    unfold calcular_saldos
    have hfun : processarEmpenho (envComFase x env) fuel = processarEmpenho env fuel :=
      funext (processarEmpenho_comFase x env fuel)
    rw [hfun]
  · intro env fuel row
    rfl

/-! ### Claim C2 -/

/-- Claim C2: for every mix of ledger events, the aggregated totals satisfy
`currentValue = initialValue + reinforcedValue - cancelledValue` exactly; Inclusion
and Reinforcement add the event's amount, Cancellation subtracts it, and an
unrecognized operation type leaves the totals untouched (aggregation never gets
stuck on it). -/
theorem c2_aggregate_invariant :
    (∀ events : List LedgerEvent,
        (aggregateLedger events).currentValue
          = (aggregateLedger events).initialValue + (aggregateLedger events).reinforcedValue
            - (aggregateLedger events).cancelledValue)
    ∧ ∀ (t : LedgerTotals) (e : LedgerEvent),
        e.operationType ≠ "INCLUSAO" → e.operationType ≠ "REFORCO" →
          e.operationType ≠ "ANULACAO" → aggregateStep t e = t := by
  constructor
  · intro events
    exact aggregateFold_inv events ⟨0, 0, 0, 0⟩ (by norm_num)
  · intro t e h1 h2 h3
    unfold aggregateStep
    rw [if_neg h1, if_neg h2, if_neg h3]

/-- Claim C2 witness: the invariant on a concrete mixed event stream, and the step
function ignoring a concrete unrecognized operation type. -/
theorem c2_aggregate_invariant_witness :
    ((aggregateLedger [⟨"INCLUSAO", 10000⟩, ⟨"REFORCO", 2000⟩, ⟨"ANULACAO", 500⟩,
        ⟨"NOVO_TIPO", 7⟩]).currentValue
      = (aggregateLedger [⟨"INCLUSAO", 10000⟩, ⟨"REFORCO", 2000⟩, ⟨"ANULACAO", 500⟩,
          ⟨"NOVO_TIPO", 7⟩]).initialValue
        + (aggregateLedger [⟨"INCLUSAO", 10000⟩, ⟨"REFORCO", 2000⟩, ⟨"ANULACAO", 500⟩,
            ⟨"NOVO_TIPO", 7⟩]).reinforcedValue
        - (aggregateLedger [⟨"INCLUSAO", 10000⟩, ⟨"REFORCO", 2000⟩, ⟨"ANULACAO", 500⟩,
            ⟨"NOVO_TIPO", 7⟩]).cancelledValue)
    ∧ aggregateStep ⟨1, 2, 3, 0⟩ ⟨"NOVO_TIPO", 7⟩ = ⟨1, 2, 3, 0⟩ :=
  ⟨c2_aggregate_invariant.1 [⟨"INCLUSAO", 10000⟩, ⟨"REFORCO", 2000⟩, ⟨"ANULACAO", 500⟩,
      ⟨"NOVO_TIPO", 7⟩],
    c2_aggregate_invariant.2 ⟨1, 2, 3, 0⟩ ⟨"NOVO_TIPO", 7⟩ (by decide) (by decide) (by decide)⟩

/-! ### Claim C3 -/

/-- Claim C3 counterexample: when every request for a commitment's related documents
fails, the batch output of `calcular_saldos` is identical to the output on a
commitment that genuinely has no related documents — the failed commitment is not
omitted (the result set still has one record), no failure is counted anywhere, and
the record carries the plausible-looking balance `saldo = 100` with `total_pago = 0`
and no flag of any kind. -/
theorem c3_batch_counterexample :
    calcular_saldos envFalha 2 [rowCem] = calcular_saldos envVazioDocs 2 [rowCem]
    ∧ (calcular_saldos envFalha 2 [rowCem]).length = 1
    ∧ (calcular_saldos envFalha 2 [rowCem]).map
        (fun r => (r.total_pago, r.saldo, r.qtd_pagamentos))
      = [((0 : ℚ), (100 : ℚ), 0)] := by
  refine ⟨by decide, by decide, by decide⟩

/-- Claim C3 (amended): a request failure is caught inside
`consultar_pagamentos_relacionados` (surfaced as `None`) and never aborts the batch —
`calcular_saldos` always emits exactly one record per input row — but the failed
commitment is not omitted: its record reports `total_pago = 0`,
`saldo = valor_empenho`, `qtd_pagamentos = 0`, indistinguishable from a commitment
with no related documents, and no failure tally exists in the output. -/
theorem c3_failure_keeps_commitment :
    (∀ (env : String → Nat → Option (List JsonItem)) (fuel : Nat) (rows : List Row),
        (calcular_saldos env fuel rows).length = rows.length)
    ∧ ∀ (env : String → Nat → Option (List JsonItem)) (fuel : Nat) (row : Row),
        env row.documento 1 = none →
          processarEmpenho env fuel row
            = ⟨row.documento, processar_valor row.valor, 0,
                fsub (processar_valor row.valor) 0,
                percentualExecutadoChecked 0 (processar_valor row.valor),
                row.observacao, 0⟩ := by
  constructor
  · intro env fuel rows
    unfold calcular_saldos
    rw [List.length_map]
  · intro env fuel row h
    cases fuel with
    | zero => rfl
    | succ n =>
      simp [processarEmpenho, consultar_pagamentos_relacionados, pagsLoop, h]

/-- Claim C3 witness: the amended statement instantiated on the failing server and
the 100,00 commitment row. -/
theorem c3_failure_keeps_commitment_witness :
    (calcular_saldos envFalha 2 [rowCem]).length = 1
    ∧ processarEmpenho envFalha 2 rowCem
        = ⟨"E1", processar_valor "100,00", 0, fsub (processar_valor "100,00") 0,
            percentualExecutadoChecked 0 (processar_valor "100,00"), "obs", 0⟩ :=
  ⟨c3_failure_keeps_commitment.1 envFalha 2 [rowCem],
    c3_failure_keeps_commitment.2 envFalha 2 rowCem rfl⟩

/-! ### Claim C4 -/

/-- Claim C4 counterexample: on an endpoint whose first page is full (500 records)
and whose second request fails, `consultar_documentos_relacionados` returns `[]` and
`consultar_pagamentos_relacionados` returns `None` even though a page had been
fetched (two requests were issued): the already-fetched pages are discarded, not
returned as a partial result, and the empty list is indistinguishable from a
commitment with no documents. -/
theorem c4_partial_pages_counterexample :
    consultar_documentos_relacionados servePagFalha 5 = []
    ∧ consultar_pagamentos_relacionados servePagFalha 5 = none
    ∧ (docsLoop servePagFalha 5 1 none [] 0).requisicoes = 2
    ∧ (servePagFalha 1).getD [] ≠ [] := by
  refine ⟨by decide, by decide, by decide, by decide⟩

/-- Claim C4 (amended): when a page request fails, both pagination loops drop every
page already fetched: `docsLoop` (behind `consultar_documentos_relacionados`) returns
the empty record list whatever was accumulated, and `pagsLoop` (behind
`consultar_pagamentos_relacionados`) returns `None`; only the `None` form is
distinguishable from a successful empty result. -/
theorem c4_failure_discards_pages :
    (∀ {α : Type} [DecidableEq α] (serve : Nat → Option (List α)) (fuel pagina : Nat)
        (ultimo : Option (List α)) (acc : List α) (reqs : Nat),
        serve pagina = none →
          docsLoop serve (fuel + 1) pagina ultimo acc reqs
            = ⟨[], reqs + 1⟩)
    ∧ ∀ {α : Type} [DecidableEq α] (serve : Nat → Option (List α)) (fuel pagina : Nat)
        (acc : List α),
        serve pagina = none → pagsLoop serve (fuel + 1) pagina acc = none := by
  constructor
  · intro α _ serve fuel pagina ultimo acc reqs h
    simp [docsLoop, h]
  · intro α _ serve fuel pagina acc h
    simp [pagsLoop, h]

/-- Claim C4 witness: the amended statement instantiated after a fetched full page,
showing the accumulated 500 records being discarded on the failing second request. -/
theorem c4_failure_discards_pages_witness :
    docsLoop servePagFalha 1 2 (some (List.range 500)) (List.range 500) 1
      = ⟨[], 2⟩
    ∧ pagsLoop servePagFalha 1 2 (List.range 500) = none :=
  ⟨c4_failure_discards_pages.1 servePagFalha 0 2 (some (List.range 500))
      (List.range 500) 1 rfl,
    c4_failure_discards_pages.2 servePagFalha 0 2 (List.range 500) rfl⟩

/-! ### Claim C5 -/

/-- Claim C5: on a mocked endpoint returning batches of sizes 500, 500, 37 the
pagination engine of `consultar_documentos_relacionados` issues exactly 3 requests
and returns all 1037 records; on batches 500, 500, 500, 500 with the last two
byte-for-byte identical it issues 4 requests but returns only the first 3 batches'
1500 records, suppressing the duplicate. -/
theorem c5_pagination_termination :
    ((docsLoop serveTresLotes 10 1 none [] 0).requisicoes = 3
      ∧ (consultar_documentos_relacionados serveTresLotes 10).length = 1037
      ∧ consultar_documentos_relacionados serveTresLotes 10 = loteA ++ loteB ++ loteC)
    ∧ (docsLoop serveLoteRepetido 10 1 none [] 0).requisicoes = 4
      ∧ (consultar_documentos_relacionados serveLoteRepetido 10).length = 1500
      ∧ consultar_documentos_relacionados serveLoteRepetido 10 = loteA ++ loteB ++ loteD := by
  refine ⟨⟨by decide, by decide, by decide⟩, by decide, by decide, by decide⟩

/-! ### Claim C6 -/

/-- Claim C6: the attribution resolver scans the impact list for the first record
whose `empenho` field equals the target, returning zero when none matches or when the
phase selects no fields; phase 3 sums `valorPago` and `valorRestoPago`, phase 2 sums
`valorLiquidado`; concretely, a response holding the target with
`valorPago = "1.500,00"` and `valorRestoPago = "0,00"` at phase 3 yields exactly
1500, an absent target yields 0, and a phase-2 record with
`valorLiquidado = "2.000,50"` yields exactly 2000.50. -/
theorem c6_attribution_resolver :
    (∀ (data : List JsonItem) (fase : ℤ) (alvo : String),
        data.find? (fun item => jsonGet item "empenho" == some alvo) = none →
          consultar_empenho_impactado data fase alvo = some 0)
    ∧ (∀ (data : List JsonItem) (fase : ℤ) (alvo : String),
        fase ≠ 2 → fase ≠ 3 → consultar_empenho_impactado data fase alvo = some 0)
    ∧ consultar_empenho_impactado [impactoX] 3 "X" = some 1500
    ∧ consultar_empenho_impactado [impactoX] 3 "Y" = some 0
    ∧ consultar_empenho_impactado [impactoZ] 2 "Z" = some (4001 / 2) := by
  refine ⟨?_, ?_, by decide, by decide, by decide⟩
  · intro data fase alvo h
    unfold consultar_empenho_impactado
    rw [h]
  · intro data fase alvo h2 h3
    have hc : camposPorFase fase = [] := by
      unfold camposPorFase
      rw [if_neg h3, if_neg h2]
    unfold consultar_empenho_impactado
    cases hfind : data.find? (fun item => jsonGet item "empenho" == some alvo) with
    | none => rfl
    | some item => rw [hc]; rfl

/-- Claim C6 witness: the two universally quantified parts instantiated concretely —
an empty response at an arbitrary phase, and a matching record at the unhandled
phase 7. -/
theorem c6_attribution_resolver_witness :
    consultar_empenho_impactado [] 5 "W" = some 0
    ∧ consultar_empenho_impactado [impactoX] 7 "X" = some 0 :=
  ⟨c6_attribution_resolver.1 [] 5 "W" rfl,
    c6_attribution_resolver.2.1 [impactoX] 7 "X" (by decide) (by decide)⟩

/-! ### Claim C7 -/

/-- Claim C7 counterexample: with ledger hits at sequences 1 and 5 only,
`coletar_itens_empenho_completos` stops after the three consecutive misses at
sequences 2, 3, 4 — before ever querying sequence 5 — so the result contains only
sequence 1 and sequence 5's events are lost, contrary to the claim that scanning
still reaches sequence 5. -/
theorem c7_sequence_scan_counterexample :
    coletar_itens_empenho_completos serveSeq15 20 = [(1, [11])]
    ∧ (coletar_itens_empenho_completos serveSeq15 20).lookup 5 = none := by
  refine ⟨by decide, by decide⟩

/-- Claim C7 (amended): scanning iterates sequences from 1 up to the ceiling of 20,
counts a zero-event sequence as one miss, and stops as soon as 3 consecutive misses
accumulate, so hits at 1 and 5 only stop the scan after sequence 4 and never reach 5;
the miss counter does reset on a hit, so hits at 1 and 4 (two misses between) reach
and keep sequence 4, and an all-hit server is scanned through the full ceiling of 20
sequences. -/
theorem c7_sequence_scan_behavior :
    coletar_itens_empenho_completos serveSeq15 20 = [(1, [11])]
    ∧ coletar_itens_empenho_completos serveSeq14 20 = [(1, [11]), (4, [44])]
    ∧ (coletar_itens_empenho_completos (fun _ _ => some ([7] : List Nat)) 20).length
        = 20 := by
  refine ⟨by decide, by decide, by decide⟩

/-! ### Claim C8 -/

/-- Claim C8: `coletar_itens_empenho_completos` queries each sequence's ledger
history only at page 1 (`consultar_historico_empenho`'s default), so on a sequence
whose history has a full 500-event first page and a non-empty second page the
collected result holds exactly the first page's 500 events even though page 2 holds
a further event — the page parameter is never incremented and later pages are never
retrieved. -/
theorem c8_history_single_page :
    coletar_itens_empenho_completos serveHistorico 20 = [(1, List.range 500)]
    ∧ consultar_historico_empenho serveHistorico 1 2 = [500]
    ∧ ((coletar_itens_empenho_completos serveHistorico 20).lookup 1).getD [] ≠
        List.range 500 ++ [500] := by
  refine ⟨by decide, by decide, by decide⟩

/-! ### Claim C9 -/

/-- Claim C9 counterexample: the balance pipeline sums in binary floating point, not
exact decimal.  Three related payments of 0,10 each against a commitment of 0,30
produce `total_pago = 5404319552844596 / 2 ^ 54` (the binary64 value
0.30000000000000004…) instead of the exact decimal 3/10, and a balance of
`-1 / 2 ^ 54` instead of the exact 0. -/
theorem c9_decimal_counterexample :
    (calcular_saldos envTresPagamentos 2 [rowTrinta]).map (fun r => (r.total_pago, r.saldo))
      = [((5404319552844596 : ℚ) / 2 ^ 54, -(1 / 2 ^ 54))]
    ∧ (5404319552844596 : ℚ) / 2 ^ 54 ≠ 3 / 10
    ∧ -((1 : ℚ) / 2 ^ 54) ≠ 0 := by
  refine ⟨by decide, by decide, by decide⟩

/-- Claim C9 (amended): only the attribution resolver
(`consultar_empenho_impactado`) performs exact decimal arithmetic — summing parsed
fields 0,10 and 0,20 gives exactly 3/10 — while the balance pipeline
(`processar_valor` / `calcular_saldos`) parses and sums in binary floating point, so
its total over three 0,10 payments is not the exact decimal 3/10. -/
theorem c9_mixed_arithmetic :
    consultar_empenho_impactado
        [[("empenho", "W"), ("valorPago", "0,10"), ("valorRestoPago", "0,20")]] 3 "W"
      = some (3 / 10)
    ∧ (calcular_saldos envTresPagamentos 2 [rowTrinta]).map (fun r => r.total_pago)
        ≠ [(3 : ℚ) / 10] := by
  refine ⟨by decide, by decide⟩

/-! ### Claim C10 -/

/-- Claim C10: in every record `calcular_saldos` emits, the executed percentage was
computed without any division by zero — the checked division never returns `none` —
because the division only happens under the guard `0 < valor_empenho`; whenever the
committed value is zero or negative the percentage is the guarded constant 0. -/
theorem c10_no_division_by_zero :
    ∀ (env : String → Nat → Option (List JsonItem)) (fuel : Nat) (rows : List Row)
      (r : ResultadoEmpenho), r ∈ calcular_saldos env fuel rows →
        (r.percentual_executado).isSome = true
        ∧ (r.valor_empenho ≤ 0 → r.percentual_executado = some 0) := by
  intro env fuel rows r hr
  unfold calcular_saldos at hr
  obtain ⟨row, _, hrow⟩ := List.mem_map.mp hr
  subst hrow
  constructor
  · exact percentualExecutadoChecked_isSome _ _
  · intro hv
    exact percentualExecutadoChecked_nonpos _ _ hv

/-- Claim C10 witness: the statement instantiated on a commitment whose committed
value parses to 0 (so the guard takes the else branch). -/
theorem c10_no_division_by_zero_witness :
    ((processarEmpenho envVazioDocs 1 rowZero).percentual_executado).isSome = true
    ∧ ((processarEmpenho envVazioDocs 1 rowZero).valor_empenho ≤ 0 →
        (processarEmpenho envVazioDocs 1 rowZero).percentual_executado = some 0) :=
  c10_no_division_by_zero envVazioDocs 1 [rowZero]
    (processarEmpenho envVazioDocs 1 rowZero) (by decide)
